import Mathlib

/-!
Verification of the libfsntfs FileEntry wrapper (src/libfsntfs/src/file_entry.rs),
a safe-wrapper layer over a native NTFS parsing library.

The native library is external and opaque; every native call is modelled by its
observable outcome at the FFI boundary: the returned status / count / offset, and
the native error object (if any) written through the error out-parameter.  The
wrapper logic itself — branch structure, status-code interpretation, error
bridging, iterator state — is translated directly from the Rust source.
-/

namespace LibyalRs

/-- A native libcerror error object, modelled by the message it carries. -/
structure NativeError where
  message : String
deriving DecidableEq, Repr

/-- The error out-parameter after a native call; `none` models a null pointer. -/
abbrev ErrorSlot := Option NativeError

/-- Modelled from the spec: the crate error type `crate::error::Error` (its source
file is not under src/).  Per spec §4.1 and §7 a bridged native error carries the
native message; when message extraction itself fails the bridge yields a degraded
"opaque failure" kind instead. -/
inductive Error where
  | ffi (message : String)
  | degraded
deriving DecidableEq, Repr

/-- Modelled from the spec: the Error Bridge `Error::try_from(native_error_handle)`
(crate::error, not under src/).  A non-null handle whose message can be extracted
yields the structured error; extraction failure (or a null handle, which is a
caller bug per spec §4.1) surfaces as the `TryFrom` failure, itself of the
degraded kind.  `extractOk` is whether message extraction succeeds. -/
def errorTryFrom (slot : ErrorSlot) (extractOk : Bool) : Except Error Error :=
  match slot, extractOk with
  | some e, true => .ok (.ffi e.message)
  | some _, false => .error .degraded
  | none, _ => .error .degraded

/-- The `Err(Error::try_from(error)?)` pattern used by the getters: the bridge's
success value is returned as the error, and a bridge failure propagates through
`?` — either way the caller receives an `Error`. -/
def errorTryFromFlat (slot : ErrorSlot) (extractOk : Bool) : Error :=
  match errorTryFrom slot extractOk with
  | .ok e => e
  | .error e => e

/-- Modelled from the spec (§7): `format!("{}", e)` on the crate error preserves
the native message text verbatim where available. -/
def errorDisplay : Error → String
  | .ffi m => m
  | .degraded => "degraded failure"

/-- A `std::io::Error` as produced by the read/seek paths, modelled by its message. -/
structure IoError where
  message : String
deriving DecidableEq, Repr

/-- `FileEntry::read` from `impl Read for FileEntry` (file_entry.rs:421-449).
`rc` is the `isize` returned by `libfsntfs_file_entry_read_buffer`, `slot` the
error out-parameter's final value, `extractOk` whether the bridge can extract the
message.  The source returns `Err` when `read_count <= -1`, building the io error
from `Error::try_from(error)` (a bridge failure becomes the fixed message
"error while getting error information"), and otherwise `Ok(read_count as usize)`. -/
def fileEntryRead (rc : Int) (slot : ErrorSlot) (extractOk : Bool) :
    Except IoError Nat :=
  if rc ≤ -1 then
    let ioErr :=
      match errorTryFrom slot extractOk with
      | .ok e => IoError.mk (errorDisplay e)
      | .error _ => IoError.mk "error while getting error information"
    .error ioErr
  else
    .ok rc.toNat

/-- The native functions `file_entry.rs` can invoke, used to record which native
calls each wrapper operation performs. -/
inductive NativeFn where
  | fileEntryFree
  | readBuffer
  | seekOffset
  | getSize
  | getNumberOfAttributes
  | getNumberOfSubFileEntries
  | getFileReference
  | getParentFileReference
  | getAttributeByIndex
  | getSubFileEntryByIndex
deriving DecidableEq, Repr

/-- Native calls performed by `FileEntry::read`: the single buffered-read call. -/
def fileEntryReadCalls : List NativeFn := [.readBuffer]

/-- Claim C1: `FileEntry::read` calls the native buffered-read primitive and
returns `Ok n` whenever the native return value `n` is non-negative (including
`n = 0` at end-of-stream, never an error), and returns `Err` exactly when the
native return value is negative. -/
theorem c1_read_status (rc : Int) (slot : ErrorSlot) (extractOk : Bool) :
    (0 ≤ rc → fileEntryRead rc slot extractOk = .ok rc.toNat) ∧
    (rc < 0 → ∃ e, fileEntryRead rc slot extractOk = .error e) ∧
    fileEntryReadCalls = [NativeFn.readBuffer] := by
  refine ⟨fun h => ?_, fun h => ?_, rfl⟩
  · rw [fileEntryRead, if_neg (by omega)]
  · rw [fileEntryRead, if_pos (by omega)]
    exact ⟨_, rfl⟩

/-- Witness for C1 at concrete inputs: a zero-length read at end-of-stream
succeeds with 0 bytes, and a native return of -1 produces an error. -/
theorem c1_read_status_witness :
    fileEntryRead 0 none true = .ok 0 ∧
    ∃ e, fileEntryRead (-1) (some ⟨"read failed"⟩) true = .error e :=
  ⟨(c1_read_status 0 none true).1 (by decide),
   (c1_read_status (-1) (some ⟨"read failed"⟩) true).2.1 (by decide)⟩

/-- `std::io::SeekFrom`: `Start` carries a `u64`, `End` and `Current` an `i64`. -/
inductive SeekFrom where
  | start (offset : Nat)
  | fromEnd (offset : Int)
  | current (offset : Int)
deriving DecidableEq, Repr

/-- The `SEEK_SET` whence constant imported from libfsntfs_sys (POSIX value). -/
def SEEK_SET : Nat := 0

/-- The `SEEK_CUR` whence constant imported from libfsntfs_sys (POSIX value). -/
def SEEK_CUR : Nat := 1

/-- The `SEEK_END` whence constant imported from libfsntfs_sys (POSIX value). -/
def SEEK_END : Nat := 2

/-- The Rust cast `offset as i64` applied to the `u64` carried by
`SeekFrom::Start`: two's-complement wrap. -/
def u64AsI64 (n : Nat) : Int :=
  let m : Nat := n % 2 ^ 64
  if m < 2 ^ 63 then (m : Int) else (m : Int) - 2 ^ 64

/-- Shared tail of `FileEntry::seek` (file_entry.rs:482-496): when the native
return `seek_pos <= -1`, bridge the error slot into an io error (a bridge failure
becomes the fixed message), otherwise return `Ok(seek_pos as u64)`. -/
def seekResult (r : Int × ErrorSlot) (extractOk : Bool) : Except IoError Nat :=
  if r.1 ≤ -1 then
    let ioErr :=
      match errorTryFrom r.2 extractOk with
      | .ok e => IoError.mk (errorDisplay e)
      | .error _ => IoError.mk "error while getting error information"
    .error ioErr
  else
    .ok r.1.toNat

/-- `FileEntry::seek` from `impl Seek for FileEntry` (file_entry.rs:451-498).
`nativeSeek off whence` is the observable outcome (returned offset, error slot)
of `libfsntfs_file_entry_seek_offset` at those arguments.  `SeekFrom::Start`
maps to `SEEK_SET`, `SeekFrom::End` to `SEEK_END`, `SeekFrom::Current` to
`SEEK_CUR`. -/
def fileEntrySeek (nativeSeek : Int → Nat → Int × ErrorSlot) (extractOk : Bool)
    (pos : SeekFrom) : Except IoError Nat :=
  let r :=
    match pos with
    | .start o => nativeSeek (u64AsI64 o) SEEK_SET
    | .fromEnd o => nativeSeek o SEEK_END
    | .current o => nativeSeek o SEEK_CUR
  seekResult r extractOk

/-- Native calls performed by `FileEntry::seek`: exactly one seek call on every arm. -/
def fileEntrySeekCalls : List NativeFn := [.seekOffset]

/-- Claim C4: `FileEntry::seek` maps `SeekFrom::Start` to `SEEK_SET`,
`SeekFrom::End` to `SEEK_END` and `SeekFrom::Current` to `SEEK_CUR`; a negative
native return value produces `Err`, and any non-negative return produces `Ok`
with that value converted to an unsigned offset. -/
theorem c4_seek_spec (f : Int → Nat → Int × ErrorSlot) (extractOk : Bool) :
    (∀ o, fileEntrySeek f extractOk (.start o) =
      seekResult (f (u64AsI64 o) SEEK_SET) extractOk) ∧
    (∀ o, fileEntrySeek f extractOk (.fromEnd o) =
      seekResult (f o SEEK_END) extractOk) ∧
    (∀ o, fileEntrySeek f extractOk (.current o) =
      seekResult (f o SEEK_CUR) extractOk) ∧
    (∀ r : Int × ErrorSlot,
      (r.1 < 0 → ∃ e, seekResult r extractOk = .error e) ∧
      (0 ≤ r.1 → seekResult r extractOk = .ok r.1.toNat)) := by
  refine ⟨fun o => rfl, fun o => rfl, fun o => rfl, fun r => ⟨fun h => ?_, fun h => ?_⟩⟩
  · rw [seekResult, if_pos (by omega)]
    exact ⟨_, rfl⟩
  · rw [seekResult, if_neg (by omega)]

/-- Witness for C4 at concrete inputs: a native seek oracle that returns the
requested absolute offset for `SEEK_SET` and fails otherwise. -/
theorem c4_seek_spec_witness :
    fileEntrySeek (fun o _ => (o, none)) true (.current 7) = .ok 7 ∧
    (∃ e, seekResult ((-1 : Int), some ⟨"bad"⟩) true = .error e) := by
  constructor
  · have h1 := (c4_seek_spec (fun o _ => (o, none)) true).2.2.1 7
    have h2 := ((c4_seek_spec (fun o _ => (o, none)) true).2.2.2
      ((7 : Int), none)).2 (by decide)
    rw [h1]
    exact h2
  · exact ((c4_seek_spec (fun o _ => (o, none)) true).2.2.2
      ((-1 : Int), some ⟨"bad"⟩)).1 (by decide)

/-- `FileEntry::get_size` (file_entry.rs:506-516): `size` is the `size64_t`
written by the native getter, `ret` its status code; a non-1 status routes the
error slot through the bridge via `Err(Error::try_from(error)?)`. -/
def fileEntryGetSize (ret : Int) (size : Nat) (slot : ErrorSlot)
    (extractOk : Bool) : Except Error Nat :=
  if ret ≠ 1 then .error (errorTryFromFlat slot extractOk) else .ok size

/-- `FileEntry::get_number_of_attributes` (file_entry.rs:548-564): `n` is the
`c_int` count written by the native getter. -/
def fileEntryGetNumberOfAttributes (ret : Int) (n : Int) (slot : ErrorSlot)
    (extractOk : Bool) : Except Error Int :=
  if ret ≠ 1 then .error (errorTryFromFlat slot extractOk) else .ok n

/-- `FileEntry::get_number_of_sub_file_entries` (file_entry.rs:612-628). -/
def fileEntryGetNumberOfSubFileEntries (ret : Int) (n : Int) (slot : ErrorSlot)
    (extractOk : Bool) : Except Error Int :=
  if ret ≠ 1 then .error (errorTryFromFlat slot extractOk) else .ok n

/-- `FileEntry::get_file_reference` (file_entry.rs:648-664): `v` is the `u64`
reference written by the native getter. -/
def fileEntryGetFileReference (ret : Int) (v : Nat) (slot : ErrorSlot)
    (extractOk : Bool) : Except Error Nat :=
  if ret ≠ 1 then .error (errorTryFromFlat slot extractOk) else .ok v

/-- `FileEntry::get_parent_file_reference` (file_entry.rs:630-646). -/
def fileEntryGetParentFileReference (ret : Int) (v : Nat) (slot : ErrorSlot)
    (extractOk : Bool) : Except Error Nat :=
  if ret ≠ 1 then .error (errorTryFromFlat slot extractOk) else .ok v

/-- Claim C7: every fixed-size read accessor (get_size, get_number_of_attributes,
get_number_of_sub_file_entries, get_file_reference, get_parent_file_reference)
returns `Ok` with the populated output exactly when the native getter returns the
success code 1, and for any other return code routes the error slot through the
error bridge and returns the bridged `Err`. -/
theorem c7_fixed_size_getters (ret : Int) (slot : ErrorSlot) (extractOk : Bool) :
    (∀ size : Nat,
      (ret = 1 → fileEntryGetSize ret size slot extractOk = .ok size) ∧
      (ret ≠ 1 → fileEntryGetSize ret size slot extractOk =
        .error (errorTryFromFlat slot extractOk))) ∧
    (∀ n : Int,
      (ret = 1 → fileEntryGetNumberOfAttributes ret n slot extractOk = .ok n) ∧
      (ret ≠ 1 → fileEntryGetNumberOfAttributes ret n slot extractOk =
        .error (errorTryFromFlat slot extractOk))) ∧
    (∀ n : Int,
      (ret = 1 → fileEntryGetNumberOfSubFileEntries ret n slot extractOk = .ok n) ∧
      (ret ≠ 1 → fileEntryGetNumberOfSubFileEntries ret n slot extractOk =
        .error (errorTryFromFlat slot extractOk))) ∧
    (∀ v : Nat,
      (ret = 1 → fileEntryGetFileReference ret v slot extractOk = .ok v) ∧
      (ret ≠ 1 → fileEntryGetFileReference ret v slot extractOk =
        .error (errorTryFromFlat slot extractOk))) ∧
    (∀ v : Nat,
      (ret = 1 → fileEntryGetParentFileReference ret v slot extractOk = .ok v) ∧
      (ret ≠ 1 → fileEntryGetParentFileReference ret v slot extractOk =
        .error (errorTryFromFlat slot extractOk))) := by
  refine ⟨fun size => ⟨fun h => ?_, fun h => ?_⟩, fun n => ⟨fun h => ?_, fun h => ?_⟩,
    fun n => ⟨fun h => ?_, fun h => ?_⟩, fun v => ⟨fun h => ?_, fun h => ?_⟩,
    fun v => ⟨fun h => ?_, fun h => ?_⟩⟩ <;>
  simp only [fileEntryGetSize, fileEntryGetNumberOfAttributes,
    fileEntryGetNumberOfSubFileEntries, fileEntryGetFileReference,
    fileEntryGetParentFileReference, h, if_neg, if_pos, ne_eq,
    not_true_eq_false, not_false_eq_true, ite_false, ite_true, reduceIte]

/-- Witness for C7 at concrete inputs: success code 1 populates the output, code
0 yields the bridged error. -/
theorem c7_fixed_size_getters_witness :
    fileEntryGetSize 1 75776 none true = .ok 75776 ∧
    fileEntryGetNumberOfAttributes 0 0 (some ⟨"bad entry"⟩) true =
      .error (Error.ffi "bad entry") :=
  ⟨((c7_fixed_size_getters 1 none true).1 75776).1 rfl,
   by
    have h := ((c7_fixed_size_getters 0 (some ⟨"bad entry"⟩) true).2.1 0).2 (by decide)
    rw [h]
    rfl⟩

/-- A `&'a Volume` reference, identified abstractly. -/
structure Volume where
  id : Nat
deriving DecidableEq, Repr

/-- `FileEntry<'a>(FileEntryRefMut, &'a Volume)` (file_entry.rs:28): the raw
native handle together with the borrowed Volume reference. -/
structure FileEntry where
  handle : Int
  volume : Volume
deriving DecidableEq, Repr

/-- `FileEntry::wrap_ptr(volume, ptr)` (file_entry.rs:52-54). -/
def FileEntry.wrap_ptr (volume : Volume) (p : Int) : FileEntry :=
  { handle := p, volume := volume }

/-- `Attribute<'a>` as created by `Attribute::wrap_ptr(self, attribute)`
(attribute.rs is not under src/; its wrap stores the raw handle plus the
borrowed parent FileEntry, mirroring `FileEntry::wrap_ptr`). -/
structure Attribute where
  handle : Int
  parent : FileEntry
deriving DecidableEq, Repr

/-- `Attribute::wrap_ptr(parent, ptr)`. -/
def Attribute.wrap_ptr (parent : FileEntry) (p : Int) : Attribute :=
  { handle := p, parent := parent }

/-- Observable outcome of a native "get handle by index" call: status code, the
handle written to the out-parameter, the error slot, and whether the bridge can
extract the message from the error. -/
structure HandleOutcome where
  ret : Int
  ptr : Int
  slot : ErrorSlot
  extractOk : Bool
deriving DecidableEq, Repr

/-- `FileEntry::get_attribute_by_index` (file_entry.rs:566-583): a non-1 status
bridges the error; success wraps the written handle with the entry itself as
parent (`Attribute::wrap_ptr(self, attribute)`). -/
def fileEntryGetAttributeByIndex (fe : FileEntry) (o : HandleOutcome) :
    Except Error Attribute :=
  if o.ret ≠ 1 then .error (errorTryFromFlat o.slot o.extractOk)
  else .ok (Attribute.wrap_ptr fe o.ptr)

/-- `FileEntry::get_sub_file_entry` (file_entry.rs:593-610): a non-1 status
bridges the error; success wraps the written handle with the entry's Volume as
parent (`FileEntry::wrap_ptr(self.1, sub_entry)` — the Volume, not `self`). -/
def fileEntryGetSubFileEntry (fe : FileEntry) (o : HandleOutcome) :
    Except Error FileEntry :=
  if o.ret ≠ 1 then .error (errorTryFromFlat o.slot o.extractOk)
  else .ok (FileEntry.wrap_ptr fe.volume o.ptr)

/-- The Rust cast `n as u32` applied to a `c_int`. -/
def i32AsU32 (n : Int) : Nat := (n % 2 ^ 32).toNat

/-- `IterAttributes` (file_entry.rs:379-383): count fetched once plus a cursor. -/
structure IterAttributes where
  num_attributes : Nat
  idx : Nat
deriving DecidableEq, Repr

/-- `IterSubEntries` (file_entry.rs:400-404). -/
structure IterSubEntries where
  num_sub_entries : Nat
  idx : Nat
deriving DecidableEq, Repr

/-- `IterAttributes::next` (file_entry.rs:388-397): while `idx < num_attributes`,
yield `get_attribute_by_index(idx)` and advance; otherwise yield `None`.
`oracle i` is the native outcome of the get-by-index call at index `i`. -/
def iterAttributesNext (fe : FileEntry) (oracle : Nat → HandleOutcome)
    (s : IterAttributes) : Option (Except Error Attribute) × IterAttributes :=
  if s.idx < s.num_attributes then
    (some (fileEntryGetAttributeByIndex fe (oracle s.idx)), { s with idx := s.idx + 1 })
  else
    (none, s)

/-- `IterSubEntries::next` (file_entry.rs:409-418): while `idx < num_sub_entries`,
yield `get_sub_file_entry(idx)` and advance; otherwise yield `None`. -/
def iterSubEntriesNext (fe : FileEntry) (oracle : Nat → HandleOutcome)
    (s : IterSubEntries) : Option (Except Error FileEntry) × IterSubEntries :=
  if s.idx < s.num_sub_entries then
    (some (fileEntryGetSubFileEntry fe (oracle s.idx)), { s with idx := s.idx + 1 })
  else
    (none, s)

/-- `FileEntry::iter_attributes` (file_entry.rs:528-536): fetch the count (the
`?` propagates a count failure as a creation-time `Err`), cast it `as u32`, and
start the cursor at index 0. -/
def fileEntryIterAttributes (ret cnt : Int) (slot : ErrorSlot)
    (extractOk : Bool) : Except Error IterAttributes :=
  match fileEntryGetNumberOfAttributes ret cnt slot extractOk with
  | .error e => .error e
  | .ok n => .ok { num_attributes := i32AsU32 n, idx := 0 }

/-- `FileEntry::iter_sub_entries` (file_entry.rs:538-546): fetch the count (the
`?` propagates a count failure as a creation-time `Err`), cast it `as u32`, and
start the cursor at index 0. -/
def fileEntryIterSubEntries (ret cnt : Int) (slot : ErrorSlot)
    (extractOk : Bool) : Except Error IterSubEntries :=
  match fileEntryGetNumberOfSubFileEntries ret cnt slot extractOk with
  | .error e => .error e
  | .ok n => .ok { num_sub_entries := i32AsU32 n, idx := 0 }

/-- Repeatedly drive `IterSubEntries::next`, collecting the yielded items until
it returns `None`; `fuel` bounds the recursion. -/
def iterSubEntriesRun (fe : FileEntry) (oracle : Nat → HandleOutcome) :
    Nat → IterSubEntries → List (Except Error FileEntry)
  | 0, _ => []
  | fuel + 1, s =>
    match iterSubEntriesNext fe oracle s with
    | (none, _) => []
    | (some x, s') => x :: iterSubEntriesRun fe oracle fuel s'

/-- All items yielded by an `IterSubEntries` cursor when driven to exhaustion. -/
def iterSubEntriesItems (fe : FileEntry) (oracle : Nat → HandleOutcome)
    (s : IterSubEntries) : List (Except Error FileEntry) :=
  iterSubEntriesRun fe oracle (s.num_sub_entries - s.idx) s

/-- Driving the sub-entry cursor from index `idx` with `fuel = num - idx` yields
the get-by-index results for `idx, idx+1, …, num-1` in order. -/
theorem iterSubEntriesRun_eq (fe : FileEntry) (oracle : Nat → HandleOutcome) :
    ∀ (fuel : Nat) (s : IterSubEntries), s.num_sub_entries - s.idx = fuel →
      iterSubEntriesRun fe oracle fuel s =
        (List.range' s.idx fuel).map (fun i => fileEntryGetSubFileEntry fe (oracle i)) := by
  intro fuel
  induction fuel with
  | zero => intro s _; rfl
  | succ fuel ih =>
    intro s hs
    have hlt : s.idx < s.num_sub_entries := by omega
    rw [iterSubEntriesRun, iterSubEntriesNext, if_pos hlt]
    simp only [List.range'_succ, List.map_cons, List.cons.injEq, true_and]
    exact ih { s with idx := s.idx + 1 } (by simp; omega)

/-- Claim C2: a sub-entry iterator created from an entry whose native sub-entry
count is `N` yields exactly `N` Result-wrapped items, in index order `0..N`
(the get-by-index result at each index), and afterwards yields `None` (an
exhausted cursor stays exhausted, so a single iterator is not restartable); a
second, independently created iterator from the same FileEntry yields the same
`N` items again. -/
theorem c2_iter_sub_entries (fe : FileEntry) (oracle : Nat → HandleOutcome)
    (ret cnt : Int) (slot : ErrorSlot) (extractOk : Bool)
    (it it2 : IterSubEntries)
    (h : fileEntryIterSubEntries ret cnt slot extractOk = .ok it)
    (h2 : fileEntryIterSubEntries ret cnt slot extractOk = .ok it2) :
    iterSubEntriesItems fe oracle it =
      (List.range it.num_sub_entries).map (fun i => fileEntryGetSubFileEntry fe (oracle i)) ∧
    (iterSubEntriesItems fe oracle it).length = it.num_sub_entries ∧
    (∀ s : IterSubEntries, s.num_sub_entries ≤ s.idx →
      iterSubEntriesNext fe oracle s = (none, s)) ∧
    iterSubEntriesItems fe oracle it2 = iterSubEntriesItems fe oracle it := by
  have hit : it.idx = 0 := by
    rw [fileEntryIterSubEntries] at h
    cases hg : fileEntryGetNumberOfSubFileEntries ret cnt slot extractOk with
    | error e => rw [hg] at h; exact absurd h (by simp)
    | ok n => rw [hg] at h; cases h; rfl
  have hitems : iterSubEntriesItems fe oracle it =
      (List.range it.num_sub_entries).map (fun i => fileEntryGetSubFileEntry fe (oracle i)) := by
    rw [iterSubEntriesItems, hit, Nat.sub_zero,
      iterSubEntriesRun_eq fe oracle it.num_sub_entries it (by omega),
      hit, List.range_eq_range']
  have hsame : it2 = it := by
    rw [h] at h2
    cases h2
    rfl
  refine ⟨hitems, ?_, fun s hs => ?_, by rw [hsame]⟩
  · rw [hitems, List.length_map, List.length_range]
  · rw [iterSubEntriesNext, if_neg (by omega)]

/-- Witness for C2 at concrete inputs: a count of 2 yields the two indexed
sub-entries in order, and the exhausted cursor yields `None`. -/
theorem c2_iter_sub_entries_witness :
    iterSubEntriesItems ⟨5, ⟨1⟩⟩ (fun i => ⟨1, (i : Int), none, true⟩) ⟨2, 0⟩ =
      [.ok ⟨0, ⟨1⟩⟩, .ok ⟨1, ⟨1⟩⟩] ∧
    iterSubEntriesNext ⟨5, ⟨1⟩⟩ (fun i => ⟨1, (i : Int), none, true⟩) ⟨2, 2⟩ =
      (none, ⟨2, 2⟩) := by
  have h := c2_iter_sub_entries ⟨5, ⟨1⟩⟩ (fun i => ⟨1, (i : Int), none, true⟩)
    1 2 none true ⟨2, 0⟩ ⟨2, 0⟩ rfl rfl
  exact ⟨h.1.trans rfl, h.2.2.1 ⟨2, 2⟩ (by decide)⟩

/-- Claim C10: every FileEntry returned by `get_sub_file_entry` stores as its
parent back-reference the same Volume reference held by the entry it came from —
not a reference to that entry — so its lifetime is bounded only by the Volume's
(the Rust type `FileEntry<'a>` ties it to the Volume borrow `'a`, not to
`&self`). -/
theorem c10_sub_entry_parent (fe : FileEntry) (o : HandleOutcome)
    (sub : FileEntry) (h : fileEntryGetSubFileEntry fe o = .ok sub) :
    sub.volume = fe.volume ∧ sub.handle = o.ptr := by
  rw [fileEntryGetSubFileEntry] at h
  by_cases hr : o.ret ≠ 1
  · rw [if_pos hr] at h
    exact absurd h (by simp)
  · rw [if_neg hr] at h
    cases h
    exact ⟨rfl, rfl⟩

/-- Witness for C10 at a concrete input: the sub-entry of an entry borrowing
Volume 3 itself stores Volume 3. -/
theorem c10_sub_entry_parent_witness :
    (FileEntry.mk 9 ⟨3⟩).volume = (FileEntry.mk 7 ⟨3⟩).volume ∧
    (FileEntry.mk 9 ⟨3⟩).handle = (HandleOutcome.mk 1 9 none true).ptr :=
  c10_sub_entry_parent ⟨7, ⟨3⟩⟩ ⟨1, 9, none, true⟩ ⟨9, ⟨3⟩⟩ rfl

/-- Claim C5, counterexample: when the native get-count call fails during
`iter_sub_entries` creation, the failure does NOT manifest as a sequence with a
single error item nor as an immediately-exhausted empty sequence — no iterator
is produced at all, because creation itself returns `Err` (the `?` on the count
call).  At status 0 with a non-null error, no cursor satisfying either shape
exists. -/
theorem c5_counterexample :
    ¬ ∃ it : IterSubEntries,
        fileEntryIterSubEntries 0 0 (some ⟨"count failed"⟩) true = .ok it ∧
        (iterSubEntriesItems ⟨5, ⟨1⟩⟩ (fun _ => ⟨1, 0, none, true⟩) it = [] ∨
          ∃ e, iterSubEntriesItems ⟨5, ⟨1⟩⟩ (fun _ => ⟨1, 0, none, true⟩) it =
            [Except.error e]) := by
  rintro ⟨it, h, -⟩
  rw [fileEntryIterSubEntries, fileEntryGetNumberOfSubFileEntries,
    if_pos (by decide)] at h
  exact absurd h (by simp)

/-- Claim C5 as amended: when the native get-count call fails during iterator
creation, the failure short-circuits as a construction-time failure — both
`iter_attributes` and `iter_sub_entries` return the bridged error from the
creation call itself, so no iteration sequence is produced; this policy is
applied consistently to both iterators. -/
theorem c5_count_failure_policy (ret cnt : Int) (slot : ErrorSlot)
    (extractOk : Bool) (h : ret ≠ 1) :
    fileEntryIterAttributes ret cnt slot extractOk =
      .error (errorTryFromFlat slot extractOk) ∧
    fileEntryIterSubEntries ret cnt slot extractOk =
      .error (errorTryFromFlat slot extractOk) := by
  rw [fileEntryIterAttributes, fileEntryIterSubEntries,
    fileEntryGetNumberOfAttributes, fileEntryGetNumberOfSubFileEntries,
    if_pos h]
  exact ⟨rfl, rfl⟩

/-- Witness for the amended C5 at a concrete input: status 0 with a non-null
error makes both iterator constructors return the same bridged error. -/
theorem c5_count_failure_policy_witness :
    fileEntryIterAttributes 0 0 (some ⟨"no count"⟩) true =
      .error (Error.ffi "no count") ∧
    fileEntryIterSubEntries 0 0 (some ⟨"no count"⟩) true =
      .error (Error.ffi "no count") := by
  have h := c5_count_failure_policy 0 0 (some ⟨"no count"⟩) true (by decide)
  exact ⟨h.1.trans rfl, h.2.trans rfl⟩

/-- Observable outcome of `impl Drop for FileEntry` (file_entry.rs:57-72):
`libfsntfs_file_entry_free` is invoked once; its error out-parameter is only
consulted by `debug_assert!(error.is_null())` — in a debug build a non-null
error trips the assertion, in a release build the expression is not evaluated —
and nothing is returned to any caller. -/
structure DropOutcome where
  freeCalls : Nat
  propagated : Option Error
  assertionTripped : Bool
deriving DecidableEq, Repr

/-- `impl Drop for FileEntry`: `slot` is the error out-parameter's value after
the native free call. -/
def fileEntryDrop (debugBuild : Bool) (slot : ErrorSlot) : DropOutcome :=
  { freeCalls := 1
    propagated := none
    assertionTripped := debugBuild && slot.isSome }

/-- Native calls performed by the destructor: the single free call. -/
def fileEntryDropCalls : List NativeFn := [.fileEntryFree]

/-- Native calls performed by `FileEntry::get_size`. -/
def fileEntryGetSizeCalls : List NativeFn := [.getSize]

/-- Native calls performed by `FileEntry::get_number_of_attributes`. -/
def fileEntryGetNumberOfAttributesCalls : List NativeFn := [.getNumberOfAttributes]

/-- Native calls performed by `FileEntry::get_number_of_sub_file_entries`. -/
def fileEntryGetNumberOfSubFileEntriesCalls : List NativeFn :=
  [.getNumberOfSubFileEntries]

/-- Native calls performed by `FileEntry::get_file_reference`. -/
def fileEntryGetFileReferenceCalls : List NativeFn := [.getFileReference]

/-- Native calls performed by `FileEntry::get_parent_file_reference`. -/
def fileEntryGetParentFileReferenceCalls : List NativeFn := [.getParentFileReference]

/-- Native calls performed by `FileEntry::get_attribute_by_index`. -/
def fileEntryGetAttributeByIndexCalls : List NativeFn := [.getAttributeByIndex]

/-- Native calls performed by `FileEntry::get_sub_file_entry`. -/
def fileEntryGetSubFileEntryCalls : List NativeFn := [.getSubFileEntryByIndex]

/-- Native calls performed by `FileEntry::iter_attributes` (only the count call). -/
def fileEntryIterAttributesCalls : List NativeFn := [.getNumberOfAttributes]

/-- Native calls performed by `FileEntry::iter_sub_entries` (only the count call). -/
def fileEntryIterSubEntriesCalls : List NativeFn := [.getNumberOfSubFileEntries]

/-- Claim C6: the native free function is called exactly once per FileEntry, on
the destruction path and by no other wrapper operation; a native error reported
during the free is not propagated to any caller and is reported via an
assertion in debug builds only. -/
theorem c6_free_exactly_once_on_drop :
    fileEntryDropCalls.count NativeFn.fileEntryFree = 1 ∧
    fileEntryReadCalls.count NativeFn.fileEntryFree = 0 ∧
    fileEntrySeekCalls.count NativeFn.fileEntryFree = 0 ∧
    fileEntryGetSizeCalls.count NativeFn.fileEntryFree = 0 ∧
    fileEntryGetNumberOfAttributesCalls.count NativeFn.fileEntryFree = 0 ∧
    fileEntryGetNumberOfSubFileEntriesCalls.count NativeFn.fileEntryFree = 0 ∧
    fileEntryGetFileReferenceCalls.count NativeFn.fileEntryFree = 0 ∧
    fileEntryGetParentFileReferenceCalls.count NativeFn.fileEntryFree = 0 ∧
    fileEntryGetAttributeByIndexCalls.count NativeFn.fileEntryFree = 0 ∧
    fileEntryGetSubFileEntryCalls.count NativeFn.fileEntryFree = 0 ∧
    fileEntryIterAttributesCalls.count NativeFn.fileEntryFree = 0 ∧
    fileEntryIterSubEntriesCalls.count NativeFn.fileEntryFree = 0 ∧
    (∀ (debugBuild : Bool) (slot : ErrorSlot),
      (fileEntryDrop debugBuild slot).freeCalls = 1 ∧
      (fileEntryDrop debugBuild slot).propagated = none) ∧
    (∀ e : NativeError, (fileEntryDrop true (some e)).assertionTripped = true) ∧
    (∀ slot : ErrorSlot, (fileEntryDrop false slot).assertionTripped = false) ∧
    (∀ debugBuild : Bool, (fileEntryDrop debugBuild none).assertionTripped = false) := by
  refine ⟨rfl, rfl, rfl, rfl, rfl, rfl, rfl, rfl, rfl, rfl, rfl, rfl,
    fun debugBuild slot => ⟨rfl, rfl⟩, fun e => rfl, fun slot => rfl,
    fun debugBuild => ?_⟩
  cases debugBuild <;> rfl

/-- What happens to the native error object written by a failing call. -/
inductive ErrorFate where
  | untouched
  | released
  | leaked
deriving DecidableEq, Repr

/-- Modelled from the spec (§4.1): `Error::try_from` releases the native error
resource on every path, including when message extraction fails. -/
def bridgeFate : ErrorSlot → ErrorFate
  | none => .untouched
  | some _ => .released

/-- A slot the wrapper never hands to the bridge: a non-null error object is
never freed, i.e. leaked. -/
def untouchedFate : ErrorSlot → ErrorFate
  | none => .untouched
  | some _ => .leaked

/-- Fate of the error slot in `FileEntry::read`: the failure branch
(`read_count <= -1`) hands the slot to `Error::try_from`; the success branch
never touches it. -/
def fileEntryReadErrorFate (rc : Int) (slot : ErrorSlot) : ErrorFate :=
  if rc ≤ -1 then bridgeFate slot else untouchedFate slot

/-- Fate of the error slot in `FileEntry::seek`: the failure branch
(`seek_pos <= -1`) hands the slot to `Error::try_from`. -/
def fileEntrySeekErrorFate (ret : Int) (slot : ErrorSlot) : ErrorFate :=
  if ret ≤ -1 then bridgeFate slot else untouchedFate slot

/-- Fate of the error slot in the status-code getters: the `!= 1` branch hands
the slot to `Error::try_from`. -/
def getterErrorFate (ret : Int) (slot : ErrorSlot) : ErrorFate :=
  if ret ≠ 1 then bridgeFate slot else untouchedFate slot

/-- Fate of the error slot in `impl Drop for FileEntry`: the destructor only
null-checks the slot inside `debug_assert!`; it never calls the bridge and never
frees the error object. -/
def fileEntryDropErrorFate (slot : ErrorSlot) : ErrorFate := untouchedFate slot

/-- Claim C3, counterexample: on the destructor path a non-null native error
reported by `libfsntfs_file_entry_free` is neither converted to an FfiError nor
released — it is leaked, contradicting "on every code path … including the
destructor". -/
theorem c3_counterexample :
    fileEntryDropErrorFate (some ⟨"free failed"⟩) = ErrorFate.leaked ∧
    fileEntryDropErrorFate (some ⟨"free failed"⟩) ≠ ErrorFate.released :=
  ⟨rfl, by decide⟩

/-- Claim C3 as amended: on every code path of every wrapper operation EXCEPT
the destructor in which a native call reports failure, the non-null native
error object is routed through the bridge, which converts and releases it; the
destructor alone leaves a non-null error object unconverted and unreleased
(only a debug assertion null-checks it). -/
theorem c3_error_release_policy (e : NativeError) :
    (∀ rc : Int, rc < 0 → fileEntryReadErrorFate rc (some e) = .released) ∧
    (∀ ret : Int, ret < 0 → fileEntrySeekErrorFate ret (some e) = .released) ∧
    (∀ ret : Int, ret ≠ 1 → getterErrorFate ret (some e) = .released) ∧
    fileEntryDropErrorFate (some e) = .leaked := by
  refine ⟨fun rc h => ?_, fun ret h => ?_, fun ret h => ?_, rfl⟩
  · rw [fileEntryReadErrorFate, if_pos (by omega)]; rfl
  · rw [fileEntrySeekErrorFate, if_pos (by omega)]; rfl
  · rw [getterErrorFate, if_pos h]; rfl

/-- Witness for the amended C3 at concrete inputs. -/
theorem c3_error_release_policy_witness :
    fileEntryReadErrorFate (-1) (some ⟨"boom"⟩) = ErrorFate.released ∧
    getterErrorFate 0 (some ⟨"boom"⟩) = ErrorFate.released ∧
    fileEntryDropErrorFate (some ⟨"boom"⟩) = ErrorFate.leaked :=
  ⟨(c3_error_release_policy ⟨"boom"⟩).1 (-1) (by decide),
   (c3_error_release_policy ⟨"boom"⟩).2.2.1 0 (by decide),
   (c3_error_release_policy ⟨"boom"⟩).2.2.2⟩

/-- State of the byte stream behind a FileEntry's default data stream: its
contents and the current offset. -/
structure StreamState where
  contents : List Nat
  pos : Nat
deriving DecidableEq, Repr

/-- Modelled from the spec: the native seek primitive
`libfsntfs_file_entry_seek_offset` (external library; spec §4.5/§6):
whence-relative repositioning returning the new absolute offset, with the -1
sentinel for a negative target. -/
def nativeSeekModel (s : StreamState) (off : Int) (whence : Nat) :
    Int × StreamState :=
  let base : Int :=
    if whence = SEEK_SET then 0
    else if whence = SEEK_CUR then (s.pos : Int)
    else (s.contents.length : Int)
  let target := base + off
  if target < 0 then (-1, s)
  else (target, { s with pos := target.toNat })

/-- Modelled from the spec: the native buffered-read primitive
`libfsntfs_file_entry_read_buffer` (external library; spec §4.5/§6): reads
min(len, remaining) bytes from the current offset — 0 at end-of-stream — and
advances the offset by the count read. -/
def nativeReadModel (s : StreamState) (len : Nat) :
    (Int × List Nat) × StreamState :=
  let n := min len (s.contents.length - s.pos)
  (((n : Int), (s.contents.drop s.pos).take n), { s with pos := s.pos + n })

/-- `FileEntry::read` run against the modelled native stream: the same branch
structure as `fileEntryRead`, with the buffer contents made explicit (the model
primitive never reports a native error, so the bridged arm carries the degraded
message). -/
def fileEntryReadS (s : StreamState) (len : Nat) :
    Except IoError (List Nat) × StreamState :=
  let r := nativeReadModel s len
  if r.1.1 ≤ -1 then
    (.error (IoError.mk "error while getting error information"), r.2)
  else
    (.ok r.1.2, r.2)

/-- `FileEntry::seek` run against the modelled native stream: the same whence
mapping and result handling as `fileEntrySeek`. -/
def fileEntrySeekS (s : StreamState) (pos : SeekFrom) :
    Except IoError Nat × StreamState :=
  let r :=
    match pos with
    | .start o => nativeSeekModel s (u64AsI64 o) SEEK_SET
    | .fromEnd o => nativeSeekModel s o SEEK_END
    | .current o => nativeSeekModel s o SEEK_CUR
  if r.1 ≤ -1 then
    (.error (IoError.mk "error while getting error information"), r.2)
  else
    (.ok r.1.toNat, r.2)

/-- Seeking to absolute offset `k < 2^63` lands the stream at position `k`. -/
theorem fileEntrySeekS_start (s : StreamState) (k : Nat) (h63 : k < 2 ^ 63) :
    fileEntrySeekS s (.start k) = (.ok k, { s with pos := k }) := by
  have hcast : u64AsI64 k = (k : Int) := by
    rw [u64AsI64]
    have h1 : k % 2 ^ 64 = k := Nat.mod_eq_of_lt (by omega)
    simp only [h1]
    rw [if_pos h63]
  have h1 : ¬((k : Int) < 0) := by omega
  have h2 : ¬((k : Int) ≤ -1) := by omega
  simp [fileEntrySeekS, nativeSeekModel, SEEK_SET, SEEK_CUR, SEEK_END, hcast, h1, h2]

/-- Claim C8: for every offset `k` within stream bounds, `seek(Start(k))` then
`read(buf)` and, separately, `seek(Start(0))`, `seek(Current(k))`, then
`read(buf2)` on the same FileEntry stream read the same bytes, `buf = buf2`. -/
theorem c8_seek_read_roundtrip (s : StreamState) (k n : Nat)
    (hb : k ≤ s.contents.length) (h63 : k < 2 ^ 63) :
    (fileEntryReadS (fileEntrySeekS s (.start k)).2 n).1 =
      (fileEntryReadS
        (fileEntrySeekS (fileEntrySeekS s (.start 0)).2 (.current (k : Int))).2 n).1 := by
  rw [fileEntrySeekS_start s k h63, fileEntrySeekS_start s 0 (by positivity)]
  have h1 : ¬((k : Int) < 0) := by omega
  have h2 : ¬((k : Int) ≤ -1) := by omega
  have hcur : fileEntrySeekS { s with pos := 0 } (.current (k : Int)) =
      (.ok k, { s with pos := k }) := by
    simp [fileEntrySeekS, nativeSeekModel, SEEK_SET, SEEK_CUR, SEEK_END, h1, h2]
  rw [hcur]

/-- Witness for C8 at a concrete stream: contents `[1,2,3,4,5]`, `k = 2`,
reading 2 bytes both ways. -/
theorem c8_seek_read_roundtrip_witness :
    (fileEntryReadS (fileEntrySeekS ⟨[1, 2, 3, 4, 5], 0⟩ (.start 2)).2 2).1 =
      (fileEntryReadS
        (fileEntrySeekS (fileEntrySeekS ⟨[1, 2, 3, 4, 5], 0⟩ (.start 0)).2
          (.current 2)).2 2).1 :=
  c8_seek_read_roundtrip ⟨[1, 2, 3, 4, 5], 0⟩ 2 2 (by decide) (by norm_num)

/-- Claim C9: a failing read or seek yields a typed error value carrying the
native message text verbatim when error extraction succeeds, and the degraded
message "error while getting error information" when extraction of the native
error itself fails; the failure is a returned `Err`, never a panic or a silent
default. -/
theorem c9_failure_error_content (rc : Int) (e : NativeError) (h : rc < 0) :
    fileEntryRead rc (some e) true = .error ⟨e.message⟩ ∧
    fileEntryRead rc (some e) false =
      .error ⟨"error while getting error information"⟩ ∧
    seekResult (rc, some e) true = .error ⟨e.message⟩ ∧
    seekResult (rc, some e) false =
      .error ⟨"error while getting error information"⟩ := by
  refine ⟨?_, ?_, ?_, ?_⟩
  · rw [fileEntryRead, if_pos (by omega : rc ≤ -1)]; rfl
  · rw [fileEntryRead, if_pos (by omega : rc ≤ -1)]; rfl
  · rw [seekResult, if_pos (by omega : (rc, some e).1 ≤ -1)]; rfl
  · rw [seekResult, if_pos (by omega : (rc, some e).1 ≤ -1)]; rfl

/-- Witness for C9 at a concrete input: native message "access denied" is
carried verbatim; an extraction failure yields the fixed degraded message. -/
theorem c9_failure_error_content_witness :
    fileEntryRead (-1) (some ⟨"access denied"⟩) true =
      .error ⟨"access denied"⟩ ∧
    fileEntryRead (-1) (some ⟨"access denied"⟩) false =
      .error ⟨"error while getting error information"⟩ :=
  ⟨(c9_failure_error_content (-1) ⟨"access denied"⟩ (by decide)).1,
   (c9_failure_error_content (-1) ⟨"access denied"⟩ (by decide)).2.1⟩

end LibyalRs
